import Mathlib

/-!
Verification development for the volume-construction module
`GeoMod/VolumeFactory.py` (constructors `revolve`, `cylinder`, `extrude`,
`edge_surfaces`, `loft`).

The module's spline kernel (`BSplineBasis`, `Surface`, `Volume`,
`SurfaceFactory`) is repository code that is not part of the analysed
sources; following the specification it is consumed as an external service
(spec section 1 and section 6), so its operations are modelled here from the
specification's contract and are marked `Modelled from the spec:` in their
doc comments.  Everything else is translated directly from
`VolumeFactory.py`.

Scalars.  The code computes over floating-point numbers.  The constructions
only need rational data, the weight 1/sqrt 2 and the angle constant pi.  We
embed scalars as the computable ring Q2 of numbers a + b*sqrt 2 with
rational a, b, which represents every weight and rotation coefficient of the
revolution construction exactly.  The transcendental constant pi, which the
code uses only as the ignored default sweep angle and to scale the periodic
circle basis to the domain (0, 2*pi), is represented by a distinguished
constant `piR2`; no theorem below depends on its numeric value.
-/

attribute [local semireducible] Rat.add Rat.mul Rat.sub Rat.inv

/-- Scalar a + b * sqrt 2 with rational coefficients. -/
structure R2 where
  a : ℚ
  b : ℚ
deriving DecidableEq, Repr

namespace R2

def add (x y : R2) : R2 := ⟨x.a + y.a, x.b + y.b⟩

def neg (x : R2) : R2 := ⟨-x.a, -x.b⟩

def sub (x y : R2) : R2 := ⟨x.a - y.a, x.b - y.b⟩

def mul (x y : R2) : R2 := ⟨x.a * y.a + 2 * x.b * y.b, x.a * y.b + x.b * y.a⟩

/-- Multiplicative inverse; the junk value 0 is returned for 0, matching the
convention used by the guarded divisions below. -/
def inv (x : R2) : R2 :=
  let d : ℚ := x.a ^ 2 - 2 * x.b ^ 2
  ⟨x.a / d, -x.b / d⟩

instance : Add R2 := ⟨add⟩

instance : Neg R2 := ⟨neg⟩

instance : Sub R2 := ⟨sub⟩

instance : Mul R2 := ⟨mul⟩

instance : Inv R2 := ⟨inv⟩

instance : Div R2 := ⟨fun x y => x * y⁻¹⟩

instance (n : ℕ) : OfNat R2 n := ⟨⟨(n : ℚ), 0⟩⟩

/-- Embed a rational number. -/
def ofQ (q : ℚ) : R2 := ⟨q, 0⟩

/-- The value sqrt 2. -/
def sqrt2 : R2 := ⟨0, 1⟩

/-- The value 1 / sqrt 2 = sqrt 2 / 2, the odd-station circle weight. -/
def invSqrt2 : R2 := ⟨0, 1/2⟩

/-- Decide 0 ≤ a + b * sqrt 2 by sign analysis and squaring. -/
def nonneg (x : R2) : Bool :=
  if 0 ≤ x.b then
    if 0 ≤ x.a then true else decide (x.a ^ 2 ≤ 2 * x.b ^ 2)
  else
    if x.a < 0 then false else decide (2 * x.b ^ 2 ≤ x.a ^ 2)

/-- Boolean order x ≤ y on ℚ adjoined sqrt 2. -/
def ble (x y : R2) : Bool := nonneg (y - x)

/-- Guarded division: 0 when the denominator is 0 (the 0/0 convention of the
Cox-de Boor recursion for repeated knots). -/
def div0 (x y : R2) : R2 := if y = 0 then 0 else x / y

/-- Stand-in rational value for the transcendental constant pi.  The code
uses pi only as the ignored default sweep angle of `revolve` and to scale
the periodic circle basis; no theorem depends on this value. -/
def piR2 : R2 := ⟨314159265358979 / 100000000000000, 0⟩

end R2

/-- Modelled from the spec: the Euclidean length computations of the lofting
parametrization use a square root.  `ratSqrt` is exact on perfect rational
squares (all inputs used by the concrete witnesses below) and returns the
integer-square-root approximation otherwise, standing in for the
floating-point square root of the original code. -/
def natSqrtS (n : ℕ) : ℕ :=
  ((List.range (n + 1)).filter (fun r => r * r ≤ n)).length - 1

def ratSqrt (q : ℚ) : ℚ :=
  (natSqrtS q.num.toNat : ℚ) / (natSqrtS q.den : ℚ)

/-- Square root on scalars; exact when the radicand is a perfect rational
square, see `ratSqrt`. -/
def R2.sqrtA (x : R2) : R2 := ⟨ratSqrt x.a, 0⟩

abbrev CP := List R2

abbrev Mat := List (List R2)

/-- Squared Euclidean length of the first three channels of the difference
of two coordinate vectors (the code slices with `[:3]`, disregarding a
weight channel). -/
def diffNormSq3 (x y : CP) : R2 :=
  (List.zipWith (fun u v => (u - v) * (u - v)) (x.take 3) (y.take 3)).foldr (· + ·) 0

/-- Euclidean distance between two centers on the first three channels. -/
def diffNorm3 (x y : CP) : R2 := R2.sqrtA (diffNormSq3 x y)

/-- Modelled from the spec: a one-dimensional B-spline basis is a degree
(stored, as in the kernel, as the order = degree + 1), an ordered knot
sequence and a periodicity flag (-1 means not periodic, p means
C-p-periodic). -/
structure BSplineBasis where
  order : ℕ
  knots : List R2
  periodic : Int
deriving DecidableEq, Repr

namespace BSplineBasis

/-- Modelled from the spec: number of basis functions, len(knots) - order,
reduced by periodic wrap-around degrees of freedom. -/
def numFunctions (b : BSplineBasis) : ℕ :=
  b.knots.length - b.order - (b.periodic + 1).toNat

/-- Modelled from the spec: the kernel's default basis constructor of a
given order: clamped on the unit interval with no interior knots
(`BSplineBasis(k)`); `BSplineBasis()` is `ofOrder 2`, the default linear
basis with two control points. -/
def ofOrder (k : ℕ) : BSplineBasis :=
  ⟨k, List.replicate k 0 ++ List.replicate k 1, -1⟩

/-- Modelled from the spec: scaling the parametric domain of a basis
multiplies every knot (`basis *= c`). -/
def scaleKnots (c : R2) (b : BSplineBasis) : BSplineBasis :=
  ⟨b.order, b.knots.map (fun t => c * t), b.periodic⟩

/-- Sum of the `len` knots starting at index `i`. -/
def knotSum (b : BSplineBasis) (i len : ℕ) : R2 :=
  (((b.knots.drop i).take len).foldr (· + ·) 0)

/-- Modelled from the spec: Greville abscissa of each basis function, the
average of its degree-many interior knots. -/
def greville (b : BSplineBasis) : List R2 :=
  (List.range b.numFunctions).map
    (fun i => R2.div0 (b.knotSum (i + 1) (b.order - 1)) (R2.ofQ (b.order - 1)))

/-- End of the parametric domain, knots[len - order]. -/
def domainEnd (b : BSplineBasis) : R2 :=
  b.knots.getD (b.knots.length - b.order) 0

/-- Modelled from the spec: Cox-de Boor evaluation of one basis function.
Degree-zero functions are right-open characteristic functions of the knot
spans, snapped closed at the domain end; repeated knots use the 0/0 = 0
convention.  Periodic wrap-around is not modelled (no claim requires
evaluating a periodic basis). -/
def coxDeBoor (b : BSplineBasis) : ℕ → ℕ → R2 → R2
  | 0, j, u =>
      let tj := b.knots.getD j 0
      let tj1 := b.knots.getD (j + 1) 0
      if R2.ble tj u ∧ (¬ R2.ble tj1 u ∨ (u = b.domainEnd ∧ tj1 = b.domainEnd ∧ tj ≠ tj1)) then 1 else 0
  | d + 1, j, u =>
      let tj := b.knots.getD j 0
      let tjd := b.knots.getD (j + d + 1) 0
      let tj1 := b.knots.getD (j + 1) 0
      let tjd1 := b.knots.getD (j + d + 2) 0
      R2.div0 ((u - tj) * b.coxDeBoor d j u) (tjd - tj) +
        R2.div0 ((tjd1 - u) * b.coxDeBoor d (j + 1) u) (tjd1 - tj1)

/-- Modelled from the spec: collocation matrix of a basis at a list of
parameter values — one row per parameter, one column per basis function. -/
def evalMatrix (b : BSplineBasis) (params : List R2) : Mat :=
  params.map (fun u => (List.range b.numFunctions).map (fun j => b.coxDeBoor (b.order - 1) j u))

end BSplineBasis

/-- The default linear basis `BSplineBasis(2)` on knots [0, 0, 1, 1]. -/
def linear01 : BSplineBasis := BSplineBasis.ofOrder 2

/-- Modelled from the spec: a Surface is two bases, a 2-D lattice of
control points indexed [u][v][channel] (the kernel's (n1, n2, d) array,
d = dimension + 1 if rational), a spatial dimension and a rational flag. -/
structure Surface where
  basis1 : BSplineBasis
  basis2 : BSplineBasis
  cps : List (List CP)
  dimension : ℕ
  rational : Bool
deriving DecidableEq, Repr

/-- Modelled from the spec: a Volume is three bases, a 3-D lattice of
control points indexed [u][v][w][channel], a spatial dimension and a
rational flag. -/
structure Volume where
  basis1 : BSplineBasis
  basis2 : BSplineBasis
  basis3 : BSplineBasis
  cps : List (List (List CP))
  dimension : ℕ
  rational : Bool
deriving DecidableEq, Repr

namespace Surface

/-- Modelled from the spec: cloning returns an independent copy; in this
value-level embedding a clone is the value itself.  Operations that the
code performs on a clone therefore leave the caller's value untouched by
construction, while `extrudeRun` below returns the post-call state of its
argument explicitly because the code mutates it. -/
def clone (s : Surface) : Surface := s

/-- Modelled from the spec: the kernel's defined control-point traversal
order - the flat list with the first (u) index varying fastest, as consumed
and produced by the Surface and Volume constructors and by iteration over a
spline object. -/
def cpFlat (s : Surface) : List CP := s.cps.transpose.flatten

/-- Modelled from the spec: number of control points of a surface
(`len(surf)`). -/
def cpCount (s : Surface) : ℕ := s.cpFlat.length

/-- Modelled from the spec: promote a surface to 3 spatial dimensions by
inserting zero coordinate channels before the weight channel
(`set_dimension(3)`); surfaces already of dimension 3 or higher are
unchanged. -/
def set_dimension3 (s : Surface) : Surface :=
  if 3 ≤ s.dimension then s
  else
    ⟨s.basis1, s.basis2,
      s.cps.map (fun row => row.map
        (fun c => c.take s.dimension ++ List.replicate (3 - s.dimension) 0 ++ c.drop s.dimension)),
      3, s.rational⟩

/-- Modelled from the spec: promote to homogeneous (rational) form by
appending a unit weight channel (`force_rational`); rational surfaces are
unchanged. -/
def force_rational (s : Surface) : Surface :=
  if s.rational then s
  else ⟨s.basis1, s.basis2, s.cps.map (fun row => row.map (fun c => c ++ [1])), s.dimension, true⟩

/-- Modelled from the spec: rigid translation of a 3-D surface by (0, 0, h)
(`surf += (0, 0, h)`): the stored z channel of every control point moves by
h, premultiplied by the point's weight when the surface is rational. -/
def translateZ (h : R2) (s : Surface) : Surface :=
  ⟨s.basis1, s.basis2,
    s.cps.map (fun row => row.map
      (fun c =>
        let w := if s.rational then c.getD 3 0 else 1
        c.take 2 ++ [c.getD 2 0 + h * w] ++ c.drop 3)),
    s.dimension, s.rational⟩

end Surface

/-- Modelled from the spec: rigid rotation of one homogeneous control point
by 45 degrees about the z axis (the kernel's `rotate(pi / 4)` applied to a
stored (x, y, z, w) row); cos and sin of the angle are both sqrt 2 / 2. -/
def rotZ45CP (c : CP) : CP :=
  let x := c.getD 0 0
  let y := c.getD 1 0
  [R2.invSqrt2 * x - R2.invSqrt2 * y, R2.invSqrt2 * x + R2.invSqrt2 * y] ++ c.drop 2

/-- Scale the z-homogeneous and weight channels (channels 2 and 3) of a
promoted, rational control point (`cp[..., 2] *= w; cp[..., 3] *= w`). -/
def scale23 (w : R2) (c : CP) : CP :=
  c.take 2 ++ (c.drop 2).map (fun z => w * z)

namespace Volume

/-- Modelled from the spec: cloning a volume; see `Surface.clone`. -/
def clone (v : Volume) : Volume := v

/-- Modelled from the spec: the Volume constructor - it receives a flat
control-point list in the defined traversal order (u fastest, then v, then
w) together with three bases and a rational flag, reshapes the list into
the internal [u][v][w] lattice, and infers the spatial dimension from the
channel count of the first point. -/
def fromFlat (b1 b2 b3 : BSplineBasis) (flat : List CP) (rat : Bool) : Volume :=
  let n1 := b1.numFunctions
  let n2 := b2.numFunctions
  let n3 := b3.numFunctions
  ⟨b1, b2, b3,
    (List.range n1).map (fun i => (List.range n2).map (fun j => (List.range n3).map
      (fun k => flat.getD (i + n1 * (j + n2 * k)) []))),
    (flat.headD []).length - (if rat then 1 else 0), rat⟩

/-- Modelled from the spec: extract the eight corner control points of a
volume, in the defined traversal order (u fastest). -/
def corners (v : Volume) : List CP :=
  let n1 := v.cps.length
  let n2 := (v.cps.headD []).length
  let n3 := ((v.cps.headD []).headD []).length
  ([n3 - 1, 0].reverse).flatMap (fun k => ([n2 - 1, 0].reverse).flatMap (fun j =>
    ([n1 - 1, 0].reverse).map (fun i => ((v.cps.getD i []).getD j []).getD k [])))

/-- Modelled from the spec: swap the first and third parametric axes of a
volume (`swap(0, 2)`), permuting the bases and the control lattice. -/
def swap02 (v : Volume) : Volume :=
  let n1 := v.cps.length
  let n2 := (v.cps.headD []).length
  let n3 := ((v.cps.headD []).headD []).length
  ⟨v.basis3, v.basis2, v.basis1,
    (List.range n3).map (fun i => (List.range n2).map (fun j => (List.range n1).map
      (fun k => ((v.cps.getD k []).getD j []).getD i []))),
    v.dimension, v.rational⟩

/-- Modelled from the spec: swap the second and third parametric axes of a
volume (`swap(1, 2)`). -/
def swap12 (v : Volume) : Volume :=
  ⟨v.basis1, v.basis3, v.basis2, v.cps.map List.transpose, v.dimension, v.rational⟩

end Volume

/-- Error kinds raised by the embedded constructors: `valueError` is the
validation error of the code (`raise ValueError`) and of kernel services
rejecting non-unifiable arguments; `attributeError` models calling a spline
method such as `clone` on a bare control-point row or list;
`indexError` models indexing an empty sequence; `linAlgError` models the
linear-algebra failure of inverting a non-square or singular collocation
matrix. -/
inductive Err where
  | valueError
  | attributeError
  | indexError
  | linAlgError
deriving DecidableEq, Repr

instance {ε α : Type} [DecidableEq ε] [DecidableEq α] : DecidableEq (Except ε α) := fun x y =>
  match x, y with
  | Except.error e1, Except.error e2 =>
      if h : e1 = e2 then isTrue (by rw [h])
      else isFalse (fun hc => h (Except.error.inj hc))
  | Except.error _, Except.ok _ => isFalse (fun hc => Except.noConfusion hc)
  | Except.ok _, Except.error _ => isFalse (fun hc => Except.noConfusion hc)
  | Except.ok a1, Except.ok a2 =>
      if h : a1 = a2 then isTrue (by rw [h])
      else isFalse (fun hc => h (Except.ok.inj hc))

/-- Affine combination al * x + (1 - al) * y of two scalars. -/
def affR2 (al x y : R2) : R2 := al * x + (1 - al) * y

/-- Affine combination of two control points. -/
def comb1 (al : R2) (x y : CP) : CP := List.zipWith (affR2 al) x y

/-- Affine combination of two rows of control points. -/
def comb2 (al : R2) (x y : List CP) : List CP := List.zipWith (comb1 al) x y

/-- Affine combination of two slabs of control points. -/
def comb3 (al : R2) (x y : List (List CP)) : List (List CP) := List.zipWith (comb2 al) x y

/-- Index of the knot span containing u: the largest l with knots[l] ≤ u. -/
def spanIdx (t : List R2) (u : R2) : ℕ := (t.filter (fun x => R2.ble x u)).length - 1

/-- Insert the value u into a sorted knot list after position l. -/
def insertAt (t : List R2) (u : R2) (l : ℕ) : List R2 :=
  t.take (l + 1) ++ [u] ++ t.drop (l + 1)

/-- Modelled from the spec: one step of knot refinement (Boehm insertion) -
the new i-th slice of the control lattice along the refined direction is the
affine combination alpha_i * P_i + (1 - alpha_i) * P_(i-1). -/
def boehmRows {α : Type} (comb : R2 → α → α → α) (p : ℕ) (t : List R2) (u : R2)
    (rows : List α) (dflt : α) : List α :=
  let l := spanIdx t u
  (List.range (rows.length + 1)).map (fun i =>
    if i + p ≤ l ∨ i = 0 then rows.getD i dflt
    else if l < i then rows.getD (i - 1) dflt
    else
      let ti := t.getD i 0
      let tip := t.getD (i + p) 0
      comb (R2.div0 (u - ti) (tip - ti)) (rows.getD i dflt) (rows.getD (i - 1) dflt))

/-- Fuel-driven sorted merge of two knot vectors; the fuel is an upper
bound on the total length, so it never runs out in `knotUnion`. -/
def knotUnionF : ℕ → List R2 → List R2 → List R2
  | 0, xs, ys => xs ++ ys
  | _ + 1, [], ys => ys
  | _ + 1, x :: xs, [] => x :: xs
  | f + 1, x :: xs, y :: ys =>
      if x = y then x :: knotUnionF f xs ys
      else if R2.ble x y then x :: knotUnionF f xs (y :: ys)
      else y :: knotUnionF f (x :: xs) ys

/-- Sorted merge of two knot vectors taking the larger multiplicity of each
value (the common refinement of the two spline spaces). -/
def knotUnion (xs ys : List R2) : List R2 := knotUnionF (xs.length + ys.length) xs ys

/-- Multiset difference: the knots of `target` not present in `cur`. -/
def diffKnots : List R2 → List R2 → List R2
  | [], _ => []
  | x :: xs, ys => if ys.contains x then diffKnots xs (ys.erase x) else x :: diffKnots xs ys

namespace Surface

/-- Insert one knot into the first parametric direction of a surface. -/
def insertU (u : R2) (s : Surface) : Surface :=
  ⟨⟨s.basis1.order, insertAt s.basis1.knots u (spanIdx s.basis1.knots u), s.basis1.periodic⟩,
    s.basis2,
    boehmRows comb2 (s.basis1.order - 1) s.basis1.knots u s.cps [],
    s.dimension, s.rational⟩

/-- Insert one knot into the second parametric direction of a surface. -/
def insertV (u : R2) (s : Surface) : Surface :=
  ⟨s.basis1,
    ⟨s.basis2.order, insertAt s.basis2.knots u (spanIdx s.basis2.knots u), s.basis2.periodic⟩,
    (boehmRows comb2 (s.basis2.order - 1) s.basis2.knots u s.cps.transpose []).transpose,
    s.dimension, s.rational⟩

/-- Modelled from the spec: the kernel's refine-to-match service
(`Surface.make_splines_identical`): refine both surfaces by knot insertion
until they share an identical spline space in both directions.  Surfaces
whose degrees, periodicities, dimensions or rational flags differ are
rejected with a validation error (degree elevation is an out-of-scope
kernel service and is not modelled). -/
def msi (s1 s2 : Surface) : Except Err (Surface × Surface) :=
  if s1.basis1.order = s2.basis1.order ∧ s1.basis2.order = s2.basis2.order ∧
      s1.basis1.periodic = s2.basis1.periodic ∧ s1.basis2.periodic = s2.basis2.periodic ∧
      s1.dimension = s2.dimension ∧ s1.rational = s2.rational then
    let tu := knotUnion s1.basis1.knots s2.basis1.knots
    let s1u := (diffKnots tu s1.basis1.knots).foldl (fun s u => insertU u s) s1
    let s2u := (diffKnots tu s2.basis1.knots).foldl (fun s u => insertU u s) s2
    let tv := knotUnion s1u.basis2.knots s2u.basis2.knots
    let s1v := (diffKnots tv s1u.basis2.knots).foldl (fun s u => insertV u s) s1u
    let s2v := (diffKnots tv s2u.basis2.knots).foldl (fun s u => insertV u s) s2u
    Except.ok (s1v, s2v)
  else Except.error Err.valueError

end Surface

namespace Volume

/-- Insert one knot into the first parametric direction of a volume. -/
def insertU (u : R2) (v : Volume) : Volume :=
  ⟨⟨v.basis1.order, insertAt v.basis1.knots u (spanIdx v.basis1.knots u), v.basis1.periodic⟩,
    v.basis2, v.basis3,
    boehmRows comb3 (v.basis1.order - 1) v.basis1.knots u v.cps [],
    v.dimension, v.rational⟩

/-- Insert one knot into the second parametric direction of a volume. -/
def insertV (u : R2) (v : Volume) : Volume :=
  ⟨v.basis1,
    ⟨v.basis2.order, insertAt v.basis2.knots u (spanIdx v.basis2.knots u), v.basis2.periodic⟩,
    v.basis3,
    v.cps.map (fun slab => boehmRows comb2 (v.basis2.order - 1) v.basis2.knots u slab []),
    v.dimension, v.rational⟩

/-- Insert one knot into the third parametric direction of a volume. -/
def insertW (u : R2) (v : Volume) : Volume :=
  ⟨v.basis1, v.basis2,
    ⟨v.basis3.order, insertAt v.basis3.knots u (spanIdx v.basis3.knots u), v.basis3.periodic⟩,
    v.cps.map (fun slab => slab.map
      (fun row => boehmRows comb1 (v.basis3.order - 1) v.basis3.knots u row [])),
    v.dimension, v.rational⟩

/-- Modelled from the spec: the kernel's refine-to-match service for
volumes (`Volume.make_splines_identical`), in all three directions; see
`Surface.msi`. -/
def msi (v1 v2 : Volume) : Except Err (Volume × Volume) :=
  if v1.basis1.order = v2.basis1.order ∧ v1.basis2.order = v2.basis2.order ∧
      v1.basis3.order = v2.basis3.order ∧
      v1.basis1.periodic = v2.basis1.periodic ∧ v1.basis2.periodic = v2.basis2.periodic ∧
      v1.basis3.periodic = v2.basis3.periodic ∧
      v1.dimension = v2.dimension ∧ v1.rational = v2.rational then
    let tu := knotUnion v1.basis1.knots v2.basis1.knots
    let a1 := (diffKnots tu v1.basis1.knots).foldl (fun v u => insertU u v) v1
    let a2 := (diffKnots tu v2.basis1.knots).foldl (fun v u => insertU u v) v2
    let tv := knotUnion a1.basis2.knots a2.basis2.knots
    let b1 := (diffKnots tv a1.basis2.knots).foldl (fun v u => insertV u v) a1
    let b2 := (diffKnots tv a2.basis2.knots).foldl (fun v u => insertV u v) a2
    let tw := knotUnion b1.basis3.knots b2.basis3.knots
    let c1 := (diffKnots tw b1.basis3.knots).foldl (fun v u => insertW u v) b1
    let c2 := (diffKnots tw b2.basis3.knots).foldl (fun v u => insertW u v) b2
    Except.ok (c1, c2)
  else Except.error Err.valueError

end Volume

/-- Elementwise sum of two control-point lattices. -/
def lat3Add (x y : List (List (List CP))) : List (List (List CP)) :=
  List.zipWith (List.zipWith (List.zipWith (List.zipWith (· + ·)))) x y

/-- Elementwise difference of two control-point lattices. -/
def lat3Sub (x y : List (List (List CP))) : List (List (List CP)) :=
  List.zipWith (List.zipWith (List.zipWith (List.zipWith (· - ·)))) x y

/-- Scalar multiple of a control-point lattice. -/
def lat3Scale (c : R2) (x : List (List (List CP))) : List (List (List CP)) :=
  x.map (List.map (List.map (List.map (fun z => c * z))))

/-- The cloned, 3-D-promoted, rational profile used by `revolve`
(lines 39-41 of the source). -/
def promoteProfile (surf : Surface) : Surface :=
  surf.clone.set_dimension3.force_rational

/-- The periodic quadratic circle basis of `revolve` before domain scaling:
`BSplineBasis(3, [-1, 0, 0, 1, 1, 2, 2, 3, 3, 4, 4, 5], periodic=0)`. -/
def revolveBasisRaw : BSplineBasis :=
  ⟨3, [-1, 0, 0, 1, 1, 2, 2, 3, 3, 4, 4, 5], 0⟩

/-- The same basis with its parametric domain scaled to (0, 2 pi)
(`basis *= 2 * pi / 4`). -/
def revolveBasis : BSplineBasis :=
  revolveBasisRaw.scaleKnots (2 * R2.piR2 / 4)

/-- Circle-station weight: 1 on even stations, 1 / sqrt 2 on odd ones. -/
def stationWeight (k : ℕ) : R2 := if k % 2 = 0 then 1 else R2.invSqrt2

/-- The flat control-point list built by the 8-iteration loop of `revolve`:
the k-th block is the promoted profile's control points rotated k times by
45 degrees, with the z-homogeneous and weight channels scaled by the
station weight. -/
def revolveFlat (S : Surface) : List CP :=
  ((List.range 8).map (fun k =>
    S.cpFlat.map (fun c => scale23 (stationWeight k) (rotZ45CP^[k] c)))).flatten

/-- `revolve(surf, theta)`: sweep a surface around the z axis.  The sweep
angle argument is accepted and, exactly as in the code, never used. -/
def revolve (surf : Surface) (theta : R2) : Volume :=
  let S := promoteProfile surf
  Volume.fromFlat S.basis1 S.basis2 revolveBasis (revolveFlat S) true

/-- Modelled from the spec: `SurfaceFactory.cylinder(r, h)`, the external
surface-level factory (spec sections 1, 2 and 4.2).  Its construction is
not part of the analysed sources; it is modelled as the standard 8-point
C0-periodic rational-quadratic circle of radius r (section 4.1's
representation) swept linearly from z = 0 to z = h.  The theorems about
`cylinder` relate its output to this shell generically and do not depend on
the shell's particular control values. -/
def SurfaceFactory_cylinder (r h : R2) : Surface :=
  let xy : ℕ → R2 × R2 := fun k =>
    match k % 8 with
    | 0 => (1, 0)
    | 1 => (1, 1)
    | 2 => (0, 1)
    | 3 => (-1, 1)
    | 4 => (-1, 0)
    | 5 => (-1, -1)
    | 6 => (0, -1)
    | _ => (1, -1)
  ⟨revolveBasis, linear01,
    (List.range 8).map (fun k =>
      let w := stationWeight k
      [0, h].map (fun z => [r * (xy k).1 * w, r * (xy k).2 * w, z * w, w])),
    3, true⟩

/-- `cylinder(r, h)`: two layers - every shell control point projected to
the z axis (x = y = 0, z and weight kept), then the shell itself - under
the default linear third basis. -/
def cylinder (r h : R2) : Volume :=
  let shell := SurfaceFactory_cylinder r h
  let cpA := shell.cpFlat.map (fun c => [0, 0, c.getD 2 0, c.getD 3 0])
  Volume.fromFlat shell.basis1 shell.basis2 linear01 (cpA ++ shell.cpFlat) true

/-- `extrude(surf, h)` together with the post-call state of the caller's
surface.  The code does not clone: it promotes the caller's surface to 3
spatial dimensions in place, reads one layer, translates the surface by
(0, 0, h) in place, reads the second layer, and translates back.  The
second component is the caller's surface as the call leaves it. -/
def extrudeRun (surf : Surface) (h : R2) : Volume × Surface :=
  let s1 := surf.set_dimension3
  let cpA := s1.cpFlat
  let s2 := s1.translateZ h
  let cpB := s2.cpFlat
  let s3 := s2.translateZ (-h)
  (Volume.fromFlat s3.basis1 s3.basis2 (BSplineBasis.ofOrder 2) (cpA ++ cpB) s3.rational, s3)

/-- The volume returned by `extrude(surf, h)`. -/
def extrude (surf : Surface) (h : R2) : Volume := (extrudeRun surf h).1

/-- One positional argument of the variadic `edge_surfaces(*surfaces)`:
either a surface or a list of surfaces. -/
inductive PyArg where
  | surf (s : Surface)
  | list (l : List Surface)
deriving DecidableEq, Repr

/-- One element of the sequence `edge_surfaces` works on after unwrapping a
single argument: a surface; a bare control-point row (iterating a Surface
yields its control points); or a raw list (when a list argument sits among
several). -/
inductive SeqItem where
  | surf (s : Surface)
  | point (p : CP)
  | rawList (l : List Surface)
deriving DecidableEq, Repr

/-- The unwrapping at the top of `edge_surfaces`: a single argument is
taken as the collection itself (`surfaces = surfaces[0]`) - for a list
argument its elements, for a surface argument the sequence of its control
points, since iterating and measuring a Surface traverses its control
points. -/
def seqOfArgs (args : List PyArg) : List SeqItem :=
  match args with
  | [PyArg.list l] => l.map SeqItem.surf
  | [PyArg.surf s] => s.cpFlat.map SeqItem.point
  | _ => args.map (fun a => match a with
      | PyArg.surf s => SeqItem.surf s
      | PyArg.list l => SeqItem.rawList l)

/-- `.clone()` on a sequence element: only surfaces have a clone method;
on a bare control-point row or a raw list the attribute lookup fails. -/
def cloneItem : SeqItem → Except Err Surface
  | SeqItem.surf s => Except.ok s.clone
  | SeqItem.point _ => Except.error Err.attributeError
  | SeqItem.rawList _ => Except.error Err.attributeError

/-- The two-surface (ruled volume) case of `edge_surfaces` (lines
116-134): clone both, unify their spline spaces, and stack the two unified
control lattices as the two layers of a volume whose third basis is the
2-point linear `BSplineBasis(2)`.  The lattice is assembled directly (the
code bypasses the Volume constructor's reordering). -/
def edgeTwo (x y : SeqItem) : Except Err Volume :=
  match cloneItem x with
  | Except.error e => Except.error e
  | Except.ok s1 =>
  match cloneItem y with
  | Except.error e => Except.error e
  | Except.ok s2 =>
  match Surface.msi s1 s2 with
  | Except.error e => Except.error e
  | Except.ok (u1, u2) =>
      Except.ok ⟨u1.basis1, u1.basis2, BSplineBasis.ofOrder 2,
        List.zipWith (List.zipWith (fun c1 c2 => [c1, c2])) u1.cps u2.cps,
        u1.dimension, u1.rational⟩

/-- The four mutually unified volumes of the six-surface (Coons patch) case
of `edge_surfaces` (lines 135-156): the three opposing-pair ruled volumes,
axis-swapped to a common convention; the trilinear corner volume built on
the eight corners of the first ruled volume; and the six sequential
pairwise refine-to-match calls in source order, each threading the updated
states. -/
def coonsPieces (i0 i1 i2 i3 i4 i5 : SeqItem) :
    Except Err (Volume × Volume × Volume × Volume) :=
  match edgeTwo i0 i1 with
  | Except.error e => Except.error e
  | Except.ok vol1 =>
  match edgeTwo i2 i3 with
  | Except.error e => Except.error e
  | Except.ok vol2 =>
  match edgeTwo i4 i5 with
  | Except.error e => Except.error e
  | Except.ok vol3 =>
  let vol4 := Volume.fromFlat linear01 linear01 linear01 vol1.corners vol1.rational
  let vol1s := vol1.swap02.swap12
  let vol2s := vol2.swap12
  let vol4s := vol4.swap12
  match Volume.msi vol1s vol2s with
  | Except.error e => Except.error e
  | Except.ok (a1, b1) =>
  match Volume.msi a1 vol3 with
  | Except.error e => Except.error e
  | Except.ok (a2, c1) =>
  match Volume.msi a2 vol4s with
  | Except.error e => Except.error e
  | Except.ok (a3, d1) =>
  match Volume.msi b1 c1 with
  | Except.error e => Except.error e
  | Except.ok (b2, c2) =>
  match Volume.msi b2 d1 with
  | Except.error e => Except.error e
  | Except.ok (b3, d2) =>
  match Volume.msi c2 d2 with
  | Except.error e => Except.error e
  | Except.ok (c3, d3) => Except.ok (a3, b3, c3, d3)

/-- The six-surface case of `edge_surfaces`: the inclusion-exclusion
combination result.controlpoints = V1 + V2 + V3 - 2 * V4 over the four
unified volumes, on the clone of the first. -/
def edgeSix (i0 i1 i2 i3 i4 i5 : SeqItem) : Except Err Volume :=
  match coonsPieces i0 i1 i2 i3 i4 i5 with
  | Except.error e => Except.error e
  | Except.ok (w1, w2, w3, w4) =>
      Except.ok ⟨w1.basis1, w1.basis2, w1.basis3,
        lat3Sub (lat3Add (lat3Add w1.clone.cps w2.cps) w3.cps) (lat3Scale 2 w4.cps),
        w1.dimension, w1.rational⟩

/-- The length dispatch of `edge_surfaces`: two sequence elements go to the
ruled two-surface case, six to the Coons six-surface case, and any other
count raises `ValueError`. -/
def edgeDispatch (seq : List SeqItem) : Except Err Volume :=
  match seq with
  | [a, b] => edgeTwo a b
  | [a, b, c, d, e, f] => edgeSix a b c d e f
  | _ => Except.error Err.valueError

/-- `edge_surfaces(*surfaces)` (lines 100-163): unwrap a single argument,
then dispatch on the sequence length. -/
def edge_surfaces (args : List PyArg) : Except Err Volume :=
  edgeDispatch (seqOfArgs args)

/-- Swap two rows of a matrix. -/
def swapRows (m : Mat) (i j : ℕ) : Mat :=
  (List.range m.length).map (fun r =>
    if r = i then m.getD j [] else if r = j then m.getD i [] else m.getD r [])

/-- One column-elimination step of Gauss-Jordan inversion with partial
pivoting; fails when no nonzero pivot exists at or below the diagonal. -/
def pivotStep (aug : Mat) (col : ℕ) : Option Mat :=
  match ((List.range aug.length).drop col).find? (fun r => (aug.getD r []).getD col 0 != 0) with
  | none => none
  | some r =>
      let sw := swapRows aug col r
      let prow := sw.getD col []
      let norm := prow.map (fun x => x / prow.getD col 0)
      some ((List.range sw.length).map (fun i =>
        if i = col then norm
        else
          let row := sw.getD i []
          let f := row.getD col 0
          List.zipWith (fun a b => a - f * b) row norm))

/-- Modelled from the spec: square-matrix inversion (`np.linalg.inv`) by
Gauss-Jordan elimination; `none` models the LinAlgError raised for a
non-square or singular matrix. -/
def matInv (m : Mat) : Option Mat :=
  if m.all (fun r => r.length = m.length) then
    let n := m.length
    let aug := List.zipWith (fun row i => row ++ (List.range n).map
      (fun j => if i = j then (1 : R2) else 0)) m (List.range n)
    match (List.range n).foldlM pivotStep aug with
    | none => none
    | some red => some (red.map (fun r => r.drop n))
  else none

/-- Modelled from the spec: the geometric center of a surface - the mean of
its control points in homogeneous position (spec section 4.4: "geometric
center (of homogeneous position ...)"). -/
def centerCP (s : Surface) : CP :=
  let d := (s.cpFlat.headD []).length
  (s.cpFlat.foldr (fun c acc => List.zipWith (· + ·) c acc) (List.replicate d 0)).map
    (fun x => R2.div0 x (R2.ofQ s.cpFlat.length))

/-- The cumulative-distance parametrization of `loft` (lines 179-182):
dist[0] = 0 and dist[i+1] = dist[i] + the Euclidean distance between
consecutive centers on the first three channels. -/
def cumDist (xs : List CP) : List R2 :=
  ((xs.drop 1).zip xs).foldl
    (fun acc p => acc ++ [acc.getLastD 0 + diffNorm3 p.1 p.2]) [0]

/-- The free-end-condition knot vector of `loft` (line 185):
[dist[0]] * 4 + dist[2:-2] + [dist[-1]] * 4. -/
def freeKnot (dist : List R2) : List R2 :=
  List.replicate 4 (dist.headD 0) ++ (dist.drop 2).dropLast.dropLast ++
    List.replicate 4 (dist.getLastD 0)

/-- The new-direction basis and interpolation parameters chosen by `loft`
for a cloned, promoted surface list that does not have exactly 2 elements:
with exactly 3 surfaces the default quadratic basis and its Greville
points; otherwise the degree-3 basis on the free-end-condition knot vector
of the cumulative center distances. -/
def loftBasisDist (surfaces : List Surface) : BSplineBasis × List R2 :=
  if surfaces.length = 3 then (BSplineBasis.ofOrder 3, (BSplineBasis.ofOrder 3).greville)
  else
    let dist := cumDist (surfaces.map centerCP)
    (⟨4, freeKnot dist, -1⟩, dist)

/-- Fallback surface for positional lookups that are guarded by index
bounds. -/
def surfDflt : Surface := ⟨linear01, linear01, [], 0, false⟩

/-- The ordered pairs (i, j), i < j < n, in the iteration order of the
pairwise unification loop of `loft` (lines 189-191). -/
def pairIdx (n : ℕ) : List (ℕ × ℕ) :=
  (List.range n).flatMap (fun i => ((List.range n).drop (i + 1)).map (fun j => (i, j)))

/-- The sequential pairwise refine-to-match loop of `loft`: each call
updates both list entries in place; the fold threads the updated list. -/
def unifyAll (l : List Surface) : Except Err (List Surface) :=
  (pairIdx l.length).foldlM
    (fun acc ij =>
      match Surface.msi (acc.getD ij.1 surfDflt) (acc.getD ij.2 surfDflt) with
      | Except.error e => Except.error e
      | Except.ok (si, sj) => Except.ok ((acc.set ij.1 si).set ij.2 sj)) l

/-- Zero control point with d channels. -/
def cpZero (d : ℕ) : CP := List.replicate d 0

/-- Sum of a list of control points with d channels. -/
def cpSum (d : ℕ) (l : List CP) : CP :=
  l.foldr (fun c acc => List.zipWith (· + ·) c acc) (cpZero d)

/-- Scalar multiple of a control point. -/
def cpSmul (c : R2) (p : CP) : CP := p.map (fun x => c * x)

/-- The result of `loft`: either a volume, or the value of the external
call `SurfaceFactory.edge_curves(surfaces)` that the code returns for
exactly two cross sections.  `SurfaceFactory` is the external surface-level
factory (spec sections 1 and 2); what its `edge_curves` does to a list of
surfaces is not specified anywhere, so the call is recorded as an opaque
external result carrying its argument. -/
inductive LoftResult where
  | vol (v : Volume)
  | externalSurfaceFactory (args : List Surface)
deriving DecidableEq, Repr

/-- The matrix stage of `loft` (lines 193-224): collocation matrices of the
two surface bases at their Greville points and of the new basis at the
given parameters; inversion of all three before any sampling (the code
inverts Nu, Nv, Nw in that order and every inversion failure raises the
same LinAlgError, so the three failure branches are matched
simultaneously); then the separable sampling and back-substitution
contractions and reassembly through the Volume constructor. -/
def loftInterp (ss : List Surface) (s0 : Surface) (basis3 : BSplineBasis) (w : List R2) :
    Except Err LoftResult :=
  match matInv (s0.basis1.evalMatrix s0.basis1.greville),
      matInv (s0.basis2.evalMatrix s0.basis2.greville),
      matInv (basis3.evalMatrix w) with
  | none, _, _ => Except.error Err.linAlgError
  | some _, none, _ => Except.error Err.linAlgError
  | some _, some _, none => Except.error Err.linAlgError
  | some muInv, some mvInv, some mwInv =>
      let basis1 := s0.basis1
      let basis2 := s0.basis2
      let m1 := basis1.numFunctions
      let m2 := basis2.numFunctions
      let n := ss.length
      let d := (s0.cpFlat.headD []).length
      let mu := basis1.evalMatrix basis1.greville
      let mv := basis2.evalMatrix basis2.greville
      let slices := ss.map (fun s =>
        let tmp := mv.map (fun ra => s.cps.map (fun colU =>
          cpSum d (List.zipWith cpSmul ra colU)))
        mu.map (fun rb => tmp.map (fun ta => cpSum d (List.zipWith cpSmul rb ta))))
      let x := (List.range m1).map (fun b => (List.range m2).map (fun a =>
        slices.map (fun sl => ((sl.getD b []).getD a (cpZero d)))))
      let cp1 := mwInv.map (fun rk => (List.range m1).map (fun b =>
        (List.range m2).map (fun a =>
          cpSum d (List.zipWith cpSmul rk (((x.getD b []).getD a []))))))
      let cp2 := mvInv.map (fun rj => (List.range n).map (fun k =>
        (List.range m1).map (fun b =>
          cpSum d (List.zipWith cpSmul rj
            ((List.range m2).map (fun a => (((cp1.getD k []).getD b []).getD a (cpZero d))))))))
      let cp3 := muInv.map (fun ri => (List.range m2).map (fun j =>
        (List.range n).map (fun k =>
          cpSum d (List.zipWith cpSmul ri
            ((List.range m1).map (fun b => (((cp2.getD j []).getD k []).getD b (cpZero d))))))))
      let flat := (List.range n).flatMap (fun k => (List.range m2).flatMap (fun j =>
        (List.range m1).map (fun i => (((cp3.getD i []).getD j []).getD k (cpZero d)))))
      Except.ok (LoftResult.vol (Volume.fromFlat basis1 basis2 basis3 flat s0.rational))

/-- The solve stage of `loft` (lines 188-224): the sequential pairwise
unification loop, then `basis1 = surfaces[0].bases[0]` - an IndexError on
an empty list - then the matrix stage. -/
def loftSolve (surfaces : List Surface) (basis3 : BSplineBasis) (w : List R2) :
    Except Err LoftResult :=
  match unifyAll surfaces with
  | Except.error e => Except.error e
  | Except.ok ss =>
  match ss.head? with
  | none => Except.error Err.indexError
  | some s0 => loftInterp ss s0 basis3 w

/-- `loft(surfaces)` (lines 165-224): clone and 3-D-promote the inputs;
with exactly two surfaces return `SurfaceFactory.edge_curves(surfaces)`;
otherwise choose the new-direction basis and parameters and run the
separable interpolation solve. -/
def loft (inSurfs : List Surface) : Except Err LoftResult :=
  let surfaces := inSurfs.map (fun s => s.clone.set_dimension3)
  if surfaces.length = 2 then
    Except.ok (LoftResult.externalSurfaceFactory surfaces)
  else
    let bd := loftBasisDist surfaces
    loftSolve surfaces bd.1 bd.2

/-!  Concrete inputs for witnesses and counterexamples. -/

/-- A bilinear unit square at height z, spatial dimension 3. -/
def sqAt (z : ℚ) : Surface :=
  ⟨linear01, linear01,
    [[[0, 0, R2.ofQ z], [0, 1, R2.ofQ z]], [[1, 0, R2.ofQ z], [1, 1, R2.ofQ z]]], 3, false⟩

/-- A bilinear unit square of spatial dimension 2 (no z channel). -/
def planarSq : Surface :=
  ⟨linear01, linear01, [[[0, 0], [0, 1]], [[1, 0], [1, 1]]], 2, false⟩

/-- A 2 x 1 profile used by the revolve witness: the segment from (2, 0) to
(3, 0), dimension 2, non-rational. -/
def prof2d : Surface := ⟨linear01, BSplineBasis.ofOrder 1, [[[2, 0]], [[3, 0]]], 2, false⟩

/-- A surface with exactly two control points (a degenerate 2 x 1 lattice),
used to probe the single-argument unwrapping of `edge_surfaces`. -/
def twoPtSurf : Surface := ⟨linear01, BSplineBasis.ofOrder 1, [[[0, 0, 0]], [[1, 0, 0]]], 3, false⟩

/-- The four stacked cross sections of the loft witnesses, with centers at
heights 0, 1, 2, 4 so the cumulative center distances are 0, 1, 2, 4. -/
def c4surfs : List Surface := [sqAt 0, sqAt 1, sqAt 2, sqAt 4]

/-- Fallback volume for total extraction of computed results. -/
def volDflt : Volume := ⟨linear01, linear01, linear01, [], 0, false⟩

/-- The four unified volumes of the concrete six-face witness. -/
def coonsW : Volume × Volume × Volume × Volume :=
  match coonsPieces (SeqItem.surf (sqAt 0)) (SeqItem.surf (sqAt 1)) (SeqItem.surf (sqAt 0))
    (SeqItem.surf (sqAt 2)) (SeqItem.surf (sqAt 0)) (SeqItem.surf (sqAt 3)) with
  | Except.ok q => q
  | Except.error _ => (volDflt, volDflt, volDflt, volDflt)

/-- The volume extracted from the concrete two-surface success case. -/
def vTwoW : Volume :=
  match edge_surfaces [PyArg.surf (sqAt 0), PyArg.surf (sqAt 3)] with
  | Except.ok v => v
  | Except.error _ => volDflt

/-- The volume extracted from the concrete six-surface success case. -/
def vSixW : Volume :=
  match edge_surfaces [PyArg.surf (sqAt 0), PyArg.surf (sqAt 1), PyArg.surf (sqAt 2),
      PyArg.surf (sqAt 3), PyArg.surf (sqAt 0), PyArg.surf (sqAt 4)] with
  | Except.ok v => v
  | Except.error _ => volDflt

/-- The volume computed by the concrete four-section loft. -/
def c4Vol : Volume :=
  match loft c4surfs with
  | Except.ok (LoftResult.vol v) => v
  | _ => volDflt

/-- Projection of a loft result onto the knot vector of its third basis. -/
def loftThirdKnots : Except Err LoftResult → Option (List R2)
  | Except.ok (LoftResult.vol v) => some v.basis3.knots
  | _ => none

/-- The knot vector the claim describes, built from the claim's words for
comparison: end knots of multiplicity 4 at the first and last cumulative
distances, interior knots ALL the interior cumulative distances
(dist[1:-1]). -/
def claimedC5Knots (surfaces : List Surface) : List R2 :=
  let dist := cumDist ((surfaces.map (fun s => s.clone.set_dimension3)).map centerCP)
  List.replicate 4 (dist.headD 0) ++ (dist.drop 1).dropLast ++ List.replicate 4 (dist.getLastD 0)

/-!  Claims. -/

/-- Claim C3 (confirmed): for every profile surface and every sweep angle
theta, `revolve(surf, theta)` produces exactly the same volume as
`revolve(surf, 2*pi)`: the angle argument is ignored, so the result always
uses the fixed full-turn four-quadrant periodic basis and the same
8-station control-point layout. -/
theorem revolve_independent_of_theta (surf : Surface) (theta : R2) :
    revolve surf theta = revolve surf (2 * R2.piR2) := rfl

/-- Claim C10 (confirmed): `cylinder(r, h)` always returns a rational
volume whose third basis is the default linear basis and whose flat
control-point list is the shell's control points projected to the z axis
(x and y zeroed, z and weight kept) followed by the shell's control points
unchanged. -/
theorem cylinder_two_layer_structure (r h : R2) :
    cylinder r h =
      Volume.fromFlat (SurfaceFactory_cylinder r h).basis1 (SurfaceFactory_cylinder r h).basis2
        linear01
        (((SurfaceFactory_cylinder r h).cpFlat.map (fun c => [0, 0, c.getD 2 0, c.getD 3 0])) ++
          (SurfaceFactory_cylinder r h).cpFlat)
        true ∧
    (cylinder r h).rational = true ∧ (cylinder r h).basis3 = linear01 :=
  ⟨rfl, rfl, rfl⟩

/-- Claim C1 (code_bug): the claim says no constructor mutates a
caller-supplied input surface, but `extrude` promotes the caller's surface
to 3 spatial dimensions in place (`surf.set_dimension(3)` on the argument,
never cloned): after `extrude(planarSq, 1)` the caller's 2-D surface has
spatial dimension 3 and a new zero z channel in every control point. -/
theorem extrude_mutates_planar_input :
    planarSq.dimension = 2 ∧ (extrudeRun planarSq 1).2.dimension = 3 ∧
      (extrudeRun planarSq 1).2 ≠ planarSq := by decide

/-- Claim C2 (code_bug): for exactly two cross sections the claim (and the
spec) say `loft` delegates to the two-surface `edge_surfaces` ruled volume,
but the code returns `SurfaceFactory.edge_curves(surfaces)` - a call into
the external surface-level factory - so no ruled `Volume` of the section
4.3 form is produced. -/
theorem loft_two_surfaces_returns_surface_factory_result (s1 s2 : Surface) :
    loft [s1, s2] =
      Except.ok (LoftResult.externalSurfaceFactory
        [s1.clone.set_dimension3, s2.clone.set_dimension3]) ∧
    ∀ v : Volume, loft [s1, s2] ≠ Except.ok (LoftResult.vol v) :=
  ⟨rfl, fun _ h => LoftResult.noConfusion (Except.ok.inj h)⟩

/-- Claim C8 (confirmed): for every two unifiable surfaces, the volume of
`edge_surfaces(surf1, surf2)` reproduces the inputs at the two endpoints of
its third parametric direction: its first control-point layer is the
unified surf1 lattice, its second layer the unified surf2 lattice, its
third basis the 2-point linear basis - whose collocation rows at the two
endpoints are (1, 0) and (0, 1), so the endpoint slices are exactly those
two layers. -/
theorem edge_surfaces_two_layers (s1 s2 u1 u2 : Surface)
    (h : Surface.msi s1.clone s2.clone = Except.ok (u1, u2)) :
    edge_surfaces [PyArg.surf s1, PyArg.surf s2] =
      Except.ok ⟨u1.basis1, u1.basis2, BSplineBasis.ofOrder 2,
        List.zipWith (List.zipWith (fun c1 c2 => [c1, c2])) u1.cps u2.cps,
        u1.dimension, u1.rational⟩ ∧
    (BSplineBasis.ofOrder 2).evalMatrix [0, 1] = [[1, 0], [0, 1]] := by
  constructor
  · show edgeTwo (SeqItem.surf s1) (SeqItem.surf s2) = _
    simp only [edgeTwo, cloneItem]
    rw [h]
  · decide

/-- Witness for C8 at two concrete bilinear squares whose spline spaces are
already identical, so unification returns them unchanged. -/
theorem edge_surfaces_two_layers_witness :
    Surface.msi (sqAt 0).clone (sqAt 2).clone = Except.ok (sqAt 0, sqAt 2) ∧
    edge_surfaces [PyArg.surf (sqAt 0), PyArg.surf (sqAt 2)] =
      Except.ok ⟨(sqAt 0).basis1, (sqAt 0).basis2, BSplineBasis.ofOrder 2,
        List.zipWith (List.zipWith (fun c1 c2 => [c1, c2])) (sqAt 0).cps (sqAt 2).cps,
        (sqAt 0).dimension, (sqAt 0).rational⟩ :=
  ⟨by decide,
    (edge_surfaces_two_layers (sqAt 0) (sqAt 2) (sqAt 0) (sqAt 2) (by decide)).1⟩

/-- Claim C4 (confirmed): for six accepted boundary surfaces the returned
volume's control lattice is V1 + V2 + V3 - 2 * V4, where V1, V2, V3 are the
three opposing-pair ruled volumes brought to a common axis convention, V4
is the trilinear corner volume on the eight corners of the first ruled
volume, and all four volumes have been pairwise unified (the six sequential
refine-to-match calls of the code) before the control-point arithmetic. -/
theorem edge_surfaces_six_inclusion_exclusion (s1 s2 s3 s4 s5 s6 : Surface)
    (w1 w2 w3 w4 : Volume)
    (h : coonsPieces (SeqItem.surf s1) (SeqItem.surf s2) (SeqItem.surf s3)
      (SeqItem.surf s4) (SeqItem.surf s5) (SeqItem.surf s6) =
        Except.ok (w1, w2, w3, w4)) :
    edge_surfaces [PyArg.surf s1, PyArg.surf s2, PyArg.surf s3, PyArg.surf s4,
        PyArg.surf s5, PyArg.surf s6] =
      Except.ok ⟨w1.basis1, w1.basis2, w1.basis3,
        lat3Sub (lat3Add (lat3Add w1.cps w2.cps) w3.cps) (lat3Scale 2 w4.cps),
        w1.dimension, w1.rational⟩ := by
  show edgeSix (SeqItem.surf s1) (SeqItem.surf s2) (SeqItem.surf s3) (SeqItem.surf s4)
    (SeqItem.surf s5) (SeqItem.surf s6) = _
  unfold edgeSix
  rw [h]
  rfl

/-- Witness for C4 at six concrete bilinear faces on identical spline
spaces (every refine-to-match call succeeds without refinement). -/
theorem edge_surfaces_six_inclusion_exclusion_witness :
    coonsPieces (SeqItem.surf (sqAt 0)) (SeqItem.surf (sqAt 1)) (SeqItem.surf (sqAt 0))
      (SeqItem.surf (sqAt 2)) (SeqItem.surf (sqAt 0)) (SeqItem.surf (sqAt 3)) =
      Except.ok (coonsW.1, coonsW.2.1, coonsW.2.2.1, coonsW.2.2.2) ∧
    edge_surfaces [PyArg.surf (sqAt 0), PyArg.surf (sqAt 1), PyArg.surf (sqAt 0),
        PyArg.surf (sqAt 2), PyArg.surf (sqAt 0), PyArg.surf (sqAt 3)] =
      Except.ok ⟨coonsW.1.basis1, coonsW.1.basis2, coonsW.1.basis3,
        lat3Sub (lat3Add (lat3Add coonsW.1.cps coonsW.2.1.cps) coonsW.2.2.1.cps)
          (lat3Scale 2 coonsW.2.2.2.cps),
        coonsW.1.dimension, coonsW.1.rational⟩ :=
  ⟨by decide,
    edge_surfaces_six_inclusion_exclusion (sqAt 0) (sqAt 1) (sqAt 0) (sqAt 2) (sqAt 0) (sqAt 3)
      coonsW.1 coonsW.2.1 coonsW.2.2.1 coonsW.2.2.2 (by decide)⟩

/-- Dispatch on any sequence length other than 2 and 6 is the validation
error, independently of the elements. -/
theorem edgeDispatch_other_counts (xs : List SeqItem) (h2 : xs.length ≠ 2) (h6 : xs.length ≠ 6) :
    edgeDispatch xs = Except.error Err.valueError := by
  match xs, h2, h6 with
  | [], _, _ => rfl
  | [_], _, _ => rfl
  | [_, _], h2, _ => exact absurd rfl h2
  | [_, _, _], _, _ => rfl
  | [_, _, _, _], _, _ => rfl
  | [_, _, _, _, _], _, _ => rfl
  | [_, _, _, _, _, _], _, h6 => exact absurd rfl h6
  | _ :: _ :: _ :: _ :: _ :: _ :: _ :: _, _, _ => rfl

/-- Claim C6 (corrected): `edge_surfaces` raises ValueError, before any
construction work, for 0, 3, 4 or 5 surface arguments, and can succeed for
2 and for 6; but a SINGLE surface argument is unwrapped as the collection
itself, whose length is its control-point count, so it reaches ValueError
only when that count is not 2 or 6 - otherwise it proceeds into
construction and fails differently (see the counterexample). -/
theorem edge_surfaces_count_behavior :
    (edge_surfaces [] = Except.error Err.valueError) ∧
    (∀ s1 s2 s3 : Surface,
      edge_surfaces [PyArg.surf s1, PyArg.surf s2, PyArg.surf s3] =
        Except.error Err.valueError) ∧
    (∀ s1 s2 s3 s4 : Surface,
      edge_surfaces [PyArg.surf s1, PyArg.surf s2, PyArg.surf s3, PyArg.surf s4] =
        Except.error Err.valueError) ∧
    (∀ s1 s2 s3 s4 s5 : Surface,
      edge_surfaces [PyArg.surf s1, PyArg.surf s2, PyArg.surf s3, PyArg.surf s4, PyArg.surf s5] =
        Except.error Err.valueError) ∧
    (∀ s : Surface, s.cpCount ≠ 2 → s.cpCount ≠ 6 →
      edge_surfaces [PyArg.surf s] = Except.error Err.valueError) ∧
    (edge_surfaces [PyArg.surf (sqAt 0), PyArg.surf (sqAt 3)] = Except.ok vTwoW) ∧
    (edge_surfaces [PyArg.surf (sqAt 0), PyArg.surf (sqAt 1), PyArg.surf (sqAt 2),
        PyArg.surf (sqAt 3), PyArg.surf (sqAt 0), PyArg.surf (sqAt 4)] = Except.ok vSixW) := by
  refine ⟨rfl, fun _ _ _ => rfl, fun _ _ _ _ => rfl, fun _ _ _ _ _ => rfl, ?_, by decide, by decide⟩
  intro s h2 h6
  show edgeDispatch (s.cpFlat.map SeqItem.point) = _
  refine edgeDispatch_other_counts _ ?_ ?_ <;> rw [List.length_map] <;> assumption

/-- Witness for C6, applying the count theorem at a concrete surface with
four control points (a bilinear square) and at three concrete surfaces. -/
theorem edge_surfaces_count_behavior_witness :
    edge_surfaces [PyArg.surf (sqAt 0)] = Except.error Err.valueError ∧
    edge_surfaces [PyArg.surf (sqAt 0), PyArg.surf (sqAt 1), PyArg.surf (sqAt 2)] =
      Except.error Err.valueError :=
  ⟨edge_surfaces_count_behavior.2.2.2.2.1 (sqAt 0) (by decide) (by decide),
    edge_surfaces_count_behavior.2.1 (sqAt 0) (sqAt 1) (sqAt 2)⟩

/-- Counterexample for C6: a single surface argument with exactly two
control points is NOT rejected with the validation error - the code
unwraps it, treats its two control points as the two "surfaces" and fails
with an attribute error when cloning a bare control point. -/
theorem edge_surfaces_single_surface_counterexample :
    twoPtSurf.cpCount = 2 ∧
    edge_surfaces [PyArg.surf twoPtSurf] = Except.error Err.attributeError ∧
    edge_surfaces [PyArg.surf twoPtSurf] ≠ Except.error Err.valueError := by decide

/-- If inverting the new-direction collocation matrix fails, the matrix
stage of loft fails with the linear-algebra error no matter how the two
surface-direction inversions fare. -/
theorem loftInterp_nonsquare_w (ss : List Surface) (s0 : Surface) (b3 : BSplineBasis)
    (w : List R2) (hw : matInv (b3.evalMatrix w) = none) :
    loftInterp ss s0 b3 w = Except.error Err.linAlgError := by
  unfold loftInterp
  rw [hw]
  cases matInv (s0.basis1.evalMatrix s0.basis1.greville) <;>
    cases matInv (s0.basis2.evalMatrix s0.basis2.greville) <;> rfl

/-- Claim C7 (corrected): `loft` has no count validation at all - with 0
surfaces it fails only when `surfaces[0].bases[0]` is read (an index
error), and with 1 surface it runs the numerical stage and fails inverting
the 1 x 4 (non-square) collocation matrix of the degenerate
free-end-condition basis, a linear-algebra error; neither failure is the
claimed immediately-reported validation error. -/
theorem loft_too_few_surfaces_failure :
    loft ([] : List Surface) = Except.error Err.indexError ∧
    ∀ s : Surface, loft [s] = Except.error Err.linAlgError := by
  refine ⟨rfl, fun s => ?_⟩
  have h0 : loft [s] = loftInterp [s.clone.set_dimension3] (s.clone.set_dimension3)
      ⟨4, [0, 0, 0, 0, 0, 0, 0, 0], -1⟩ [0] := rfl
  rw [h0]
  exact loftInterp_nonsquare_w _ _ _ _ (by decide)

/-- Counterexample for C7: at the concrete input of zero surfaces `loft`
raises the index error of `surfaces[0]`, not a validation error. -/
theorem loft_empty_input_counterexample :
    loft ([] : List Surface) = Except.error Err.indexError ∧
    (Except.error Err.indexError : Except Err LoftResult) ≠
      Except.error Err.valueError := by decide

/-- The third basis of a successful matrix stage is the basis it was
given. -/
theorem loftInterp_basis3 (ss : List Surface) (s0 : Surface) (b3 : BSplineBasis) (w : List R2)
    (V : Volume) (h : loftInterp ss s0 b3 w = Except.ok (LoftResult.vol V)) : V.basis3 = b3 := by
  unfold loftInterp at h
  split at h
  · exact absurd h (by simp)
  · exact absurd h (by simp)
  · exact absurd h (by simp)
  · injection h with h'
    injection h' with h''
    rw [← h'']
    rfl

/-- The third basis of a successful solve stage is the basis it was
given. -/
theorem loftSolve_basis3 (l : List Surface) (b3 : BSplineBasis) (w : List R2) (V : Volume)
    (h : loftSolve l b3 w = Except.ok (LoftResult.vol V)) : V.basis3 = b3 := by
  unfold loftSolve at h
  split at h
  · exact absurd h (by simp)
  · split at h
    · exact absurd h (by simp)
    · exact loftInterp_basis3 _ _ _ _ _ h

/-- Claim C5 (corrected): for 4 or more cross sections the new-direction
basis is degree 3 (order 4) with end knots of multiplicity 4 at the first
and last cumulative center distances, but its interior knots are
dist[2:-2] - the cumulative distances EXCLUDING the first two and last two
(the free/not-a-knot end condition of the code comment) - not all interior
cumulative distances as the claim states. -/
theorem loft_free_end_knot_vector (ss : List Surface) (V : Volume)
    (h4 : 4 ≤ ss.length) (h : loft ss = Except.ok (LoftResult.vol V)) :
    V.basis3 =
      ⟨4, freeKnot (cumDist ((ss.map (fun s => s.clone.set_dimension3)).map centerCP)), -1⟩ := by
  unfold loft at h
  rw [if_neg (by rw [List.length_map]; omega)] at h
  have hb := loftSolve_basis3 _ _ _ _ h
  rw [hb]
  unfold loftBasisDist
  rw [if_neg (by rw [List.length_map]; omega)]

/-- Witness for C5 at the four concrete stacked squares with cumulative
center distances 0, 1, 2, 4: the computed third basis is the degree-3
basis on [0, 0, 0, 0, 4, 4, 4, 4]. -/
theorem loft_free_end_knot_vector_witness :
    4 ≤ c4surfs.length ∧ loft c4surfs = Except.ok (LoftResult.vol c4Vol) ∧
    c4Vol.basis3 =
      ⟨4, freeKnot (cumDist ((c4surfs.map (fun s => s.clone.set_dimension3)).map centerCP)),
        -1⟩ :=
  ⟨by decide, by decide,
    loft_free_end_knot_vector c4surfs c4Vol (by decide) (by decide)⟩

/-- Counterexample for C5: at the four concrete sections with cumulative
distances 0, 1, 2, 4 the built knot vector is [0,0,0,0,4,4,4,4] - the
interior distances 1 and 2 are dropped by dist[2:-2] - while the claim's
knot vector would be [0,0,0,0,1,2,4,4,4,4]. -/
theorem loft_knot_vector_counterexample :
    loftThirdKnots (loft c4surfs) = some [0, 0, 0, 0, 4, 4, 4, 4] ∧
    claimedC5Knots c4surfs = [0, 0, 0, 0, 1, 2, 4, 4, 4, 4] ∧
    loftThirdKnots (loft c4surfs) ≠ some (claimedC5Knots c4surfs) := by decide

/-- Indexing a flattening of equal-length blocks: position k * n + j reads
element j of block k. -/
theorem getD_flatten_const {α : Type} (L : List (List α)) (n : ℕ)
    (hL : ∀ b ∈ L, b.length = n) (k j : ℕ) (hk : k < L.length) (hj : j < n) (d : α) :
    L.flatten.getD (k * n + j) d = (L.getD k []).getD j d := by
  induction L generalizing k with
  | nil => exact absurd hk (by simp)
  | cons b rest ih =>
    have hb : b.length = n := hL b (List.mem_cons_self _ _)
    cases k with
    | zero =>
      rw [List.flatten_cons]
      have h0 : 0 * n + j = j := by omega
      rw [h0]
      exact List.getD_append b rest.flatten d j (by omega)
    | succ k =>
      rw [List.flatten_cons]
      rw [List.getD_append_right _ _ _ _ (by rw [hb, Nat.succ_mul]; omega)]
      have h1 : (k + 1) * n + j - b.length = k * n + j := by rw [hb, Nat.succ_mul]; omega
      rw [h1]
      exact ih (fun c hc => hL c (List.mem_cons_of_mem _ hc)) k (by simpa using hk)

/-- The revolve loop writes 8 blocks of n control points each. -/
theorem revolveFlat_length (S : Surface) : (revolveFlat S).length = 8 * S.cpFlat.length := by
  unfold revolveFlat
  rw [List.length_flatten, List.map_map]
  have h : (List.length ∘ fun k =>
      S.cpFlat.map (fun c => scale23 (stationWeight k) (rotZ45CP^[k] c))) =
        fun _ => S.cpFlat.length := by
    funext k
    simp
  rw [h, List.map_const', List.sum_replicate, List.length_range]
  simp [smul_eq_mul]

theorem getD_range8_map {β : Type} (f : ℕ → β) (k : ℕ) (hk : k < 8) (d : β) :
    ((List.range 8).map f).getD k d = f k := by
  rw [List.getD_eq_getElem?_getD, List.getElem?_map, List.getElem?_range hk,
    Option.map_some', Option.getD_some]

theorem getD_map_of_lt {α β : Type} (f : α → β) (l : List α) (j : ℕ) (hj : j < l.length)
    (d : β) (d' : α) : (l.map f).getD j d = f (l.getD j d') := by
  rw [List.getD_eq_getElem?_getD, List.getElem?_map, List.getElem?_eq_getElem hj,
    Option.map_some', Option.getD_some, List.getD_eq_getElem?_getD,
    List.getElem?_eq_getElem hj, Option.getD_some]

/-- Control point j of station k of the revolve lattice. -/
theorem revolveFlat_getD (S : Surface) (k j : ℕ) (hk : k < 8) (hj : j < S.cpFlat.length) :
    (revolveFlat S).getD (k * S.cpFlat.length + j) [] =
      scale23 (stationWeight k) (rotZ45CP^[k] (S.cpFlat.getD j [])) := by
  unfold revolveFlat
  rw [getD_flatten_const _ S.cpFlat.length
    (by intro b hb; rcases List.mem_map.mp hb with ⟨a, _, rfl⟩; simp) k j (by simpa using hk) hj]
  rw [getD_range8_map
    (fun k => S.cpFlat.map (fun c => scale23 (stationWeight k) (rotZ45CP^[k] c))) k hk]
  rw [getD_map_of_lt _ _ _ hj _ []]

/-- Claim C9 (confirmed): for a profile with n control points `revolve`
returns a rational volume built from exactly 8 * n control points in 8
stations: station k holds the 3-D-promoted rational profile's control
points rotated k times by 45 degrees, with the z-homogeneous and weight
channels multiplied by the station weight - left unchanged (factor 1.0) on
even stations and scaled by 1 / sqrt 2 on odd stations. -/
theorem revolve_eight_stations (surf : Surface) (theta : R2) (k j : ℕ)
    (hk : k < 8) (hj : j < (promoteProfile surf).cpFlat.length) :
    (revolve surf theta).rational = true ∧
    (revolveFlat (promoteProfile surf)).length = 8 * (promoteProfile surf).cpFlat.length ∧
    revolve surf theta = Volume.fromFlat (promoteProfile surf).basis1
      (promoteProfile surf).basis2 revolveBasis (revolveFlat (promoteProfile surf)) true ∧
    (revolveFlat (promoteProfile surf)).getD
        (k * (promoteProfile surf).cpFlat.length + j) [] =
      scale23 (stationWeight k) (rotZ45CP^[k] ((promoteProfile surf).cpFlat.getD j [])) :=
  ⟨rfl, revolveFlat_length _, rfl, revolveFlat_getD _ k j hk hj⟩

/-- Witness for C9 at the concrete two-point profile, station 1, point 0:
the odd station carries the 45-degree-rotated profile point with channels
2 and 3 scaled by 1 / sqrt 2. -/
theorem revolve_eight_stations_witness :
    (1 < 8 ∧ 0 < (promoteProfile prof2d).cpFlat.length) ∧
    ((revolve prof2d 0).rational = true ∧
      (revolveFlat (promoteProfile prof2d)).length =
        8 * (promoteProfile prof2d).cpFlat.length ∧
      revolve prof2d 0 = Volume.fromFlat (promoteProfile prof2d).basis1
        (promoteProfile prof2d).basis2 revolveBasis (revolveFlat (promoteProfile prof2d))
        true ∧
      (revolveFlat (promoteProfile prof2d)).getD
          (1 * (promoteProfile prof2d).cpFlat.length + 0) [] =
        scale23 (stationWeight 1)
          (rotZ45CP^[1] ((promoteProfile prof2d).cpFlat.getD 0 []))) :=
  ⟨⟨by decide, by decide⟩, revolve_eight_stations prof2d 0 1 0 (by decide) (by decide)⟩
